import Mathlib

/-!
Shallow embedding of `src/monitor/detectors.rs` (attention detectors for
CLI process monitoring) and proofs of the specification's properties.

Modelling conventions:
* The ambient operating system (wall clock, `/proc/<pid>/stat` contents,
  the `/proc/<pid>/fd/0` link target, the stdout of the external `lsof`
  invocation) is an explicit `Env` record; each field is `Option`-valued
  exactly where the corresponding Rust call is fallible.
* `SystemTime` is modelled at whole-second granularity (the code only ever
  uses `.as_secs()` of the offset from `UNIX_EPOCH`); `Env.now : Int` may be
  negative (a clock before the epoch), in which case
  `duration_since(UNIX_EPOCH)` fails and the source's `.unwrap()` panics.
  A detector `check` therefore returns `Except String (Option AttentionReason)`:
  `.error` is the propagated panic, `.ok` the Rust return value.
* Rust `Duration` values are total nanosecond counts (`Nat`); `Duration`
  comparison in Rust is comparison of the nanosecond totals.
* `u64`/`i64` arithmetic is `Nat`/`Int` with explicit two's-complement
  wrapping (`% 2 ^ 64`) where the Rust release-mode semantics wraps.
-/

set_option autoImplicit false

namespace AgentMonitor

/-- Rust `str::split_whitespace` over an explicit character list: maximal
whitespace runs separate tokens and no empty tokens are produced. -/
def splitWSAux : List Char → List Char → List String
  | [], acc => if acc.isEmpty then [] else [String.mk acc.reverse]
  | c :: cs, acc =>
    if c.isWhitespace then
      if acc.isEmpty then splitWSAux cs []
      else String.mk acc.reverse :: splitWSAux cs []
    else splitWSAux cs (c :: acc)

/-- Rust `str::split_whitespace().collect::<Vec<_>>()`. -/
def splitWhitespace (s : String) : List String :=
  splitWSAux s.data []

/-- Accumulator pass of unsigned decimal parsing: fails on the first
non-digit character. -/
def parseDigitsAux : List Char → Nat → Option Nat
  | [], acc => some acc
  | c :: cs, acc =>
    if c.isDigit then parseDigitsAux cs (10 * acc + (c.toNat - 48)) else none

/-- Rust `str::parse::<u64>().ok()`: an optional leading `+`, then one or
more decimal digits, value below `2 ^ 64`; anything else is `none`. -/
def parseU64 (s : String) : Option Nat :=
  let cs := if s.data.head? = some '+' then s.data.tail else s.data
  match cs with
  | [] => none
  | _ =>
    match parseDigitsAux cs 0 with
    | some n => if n < 2 ^ 64 then some n else none
    | none => none

/-- Substring search over character lists: does `pat` occur as a contiguous
run of `cs`? -/
def substrAux (pat : List Char) : List Char → Bool
  | [] => pat.isPrefixOf ([] : List Char)
  | c :: cs => pat.isPrefixOf (c :: cs) || substrAux pat cs

/-- Rust `str::contains(pat)` for a literal pattern. -/
def strContains (s pat : String) : Bool :=
  substrAux pat.data s.data

/-- A finished line of Rust `str::lines`: a trailing carriage return before
the line feed is stripped. The accumulator is reversed. -/
def mkLine (acc : List Char) : String :=
  match acc with
  | '\r' :: rest => String.mk rest.reverse
  | _ => String.mk acc.reverse

/-- Accumulator pass of Rust `str::lines`: lines end at `\n` (an immediately
preceding `\r` is stripped); a final line without a terminator keeps any
trailing `\r`. -/
def linesAux : List Char → List Char → List String
  | [], acc => if acc.isEmpty then [] else [String.mk acc.reverse]
  | c :: cs, acc =>
    if c = '\n' then mkLine acc :: linesAux cs []
    else linesAux cs (c :: acc)

/-- Rust `str::lines().collect::<Vec<_>>()`. -/
def rustLines (s : String) : List String :=
  linesAux s.data []

/-- Two's-complement wrap of an integer into the `i64` range
`[-2 ^ 63, 2 ^ 63)`; this is release-mode Rust `i64` overflow behaviour and
also the `u64 -> i64` `as`-cast when applied to a value below `2 ^ 64`. -/
def wrapI64 (x : Int) : Int :=
  (x + 2 ^ 63) % 2 ^ 64 - 2 ^ 63

/-- Rust `Duration::as_secs()` on a nanosecond total. -/
def durationAsSecs (nanos : Nat) : Nat :=
  nanos / 1000000000

/-- Rust `Duration::from_secs(s)` as a nanosecond total. -/
def durationFromSecs (s : Nat) : Nat :=
  s * 1000000000

/-- The source's task-age computation, shared verbatim by all three
detectors:
`SystemTime::now().duration_since(UNIX_EPOCH).unwrap().as_secs() as i64
 - task.created_at.timestamp()`,
given the already-unwrapped whole-second clock reading `nowSecs`. The cast
and the subtraction both wrap in `i64`. -/
def taskAgeSecs (nowSecs : Nat) (created_at : Int) : Int :=
  wrapI64 (wrapI64 (nowSecs : Int) - created_at)

/-- The attention classification returned by a detector
(`enum AttentionReason` in the source). -/
inductive AttentionReason where
  | WaitingForInput
  | ProcessStalled
  | Custom (msg : String)
deriving DecidableEq

/-- `AttentionReason::as_str`. -/
def AttentionReason.as_str : AttentionReason → String
  | .WaitingForInput => "Waiting for input"
  | .ProcessStalled => "Process stalled (no activity)"
  | .Custom s => s

/-- The external task entity (`crate::models::Task`); the detectors consume
only its creation timestamp, `created_at.timestamp() : i64` (whole seconds
since the epoch, possibly negative). -/
structure Task where
  created_at : Int

/-- `struct TaskContext`: the per-poll context supplied by the caller.
Durations and instants are whole nanoseconds / whole seconds. -/
structure TaskContext where
  pid : Int
  last_check : Int
  last_cpu_time : Option Nat
  idle_duration : Nat

/-- The ambient operating-system state visible to one `check` call.
`procStat pid` is the content of `/proc/<pid>/stat` when
`fs::read_to_string` succeeds; `fdLink pid` is the (lossy-decoded) target of
the symlink `/proc/<pid>/fd/0` when `fs::read_link` succeeds; `lsofStdout
pid` is the stdout of `lsof -p <pid> -a -d 0` when the command itself ran;
`now : Int` is `SystemTime::now()` in whole seconds relative to
`UNIX_EPOCH`. -/
structure Env where
  now : Int
  procStat : Int → Option String
  fdLink : Int → Option String
  lsofStdout : Int → Option String

/-- `SystemTime::now().duration_since(UNIX_EPOCH).unwrap().as_secs()`: the
unwrap panics exactly when the clock reads before the epoch. -/
def systemNowSecs (env : Env) : Except String Nat :=
  if 0 ≤ env.now then .ok env.now.toNat
  else .error "SystemTimeError: second time provided was later than self"

/-- `ProcessStateDetector::check_process_state`: reads `/proc/<pid>/stat`,
takes the third whitespace-separated token as the state; when the state is
`S` and descriptor 0 resolves to a pty/tty target, answers the sentinel
string `waiting_input`, otherwise the state token itself; a failed read or
fewer than 3 tokens gives `none`. -/
def ProcessStateDetector.check_process_state (env : Env) (pid : Int) : Option String :=
  match env.procStat pid with
  | none => none
  | some stat_content =>
    let parts := splitWhitespace stat_content
    if h : parts.length < 3 then none
    else
      let state := parts.get ⟨2, by omega⟩
      if state = "S" then
        match env.fdLink pid with
        | some link =>
          if strContains link "/dev/pts/" || strContains link "/dev/tty" then
            some "waiting_input"
          else some state
        | none => some state
      else some state

/-- `impl AttentionDetector for ProcessStateDetector`: emits
`WaitingForInput` when the process is sleeping on a terminal descriptor,
the task age exceeds 10 seconds and the idle duration exceeds 5 whole
seconds. -/
def ProcessStateDetector.check (env : Env) (task : Task) (context : TaskContext) :
    Except String (Option AttentionReason) :=
  match ProcessStateDetector.check_process_state env context.pid with
  | some state =>
    if state = "waiting_input" then
      match systemNowSecs env with
      | .error e => .error e
      | .ok nowSecs =>
        let task_age := taskAgeSecs nowSecs task.created_at
        if task_age > 10 && durationAsSecs context.idle_duration > 5 then
          .ok (some AttentionReason.WaitingForInput)
        else .ok none
    else .ok none
  | none => .ok none

/-- `StallDetector::get_process_cpu_time`: parses tokens 14 and 15 of
`/proc/<pid>/stat` as `u64` utime/stime and sums them (wrapping `u64`
addition); a failed read, fewer than 15 tokens, or a non-numeric token
gives `none`. -/
def StallDetector.get_process_cpu_time (env : Env) (pid : Int) : Option Nat :=
  match env.procStat pid with
  | none => none
  | some stat_content =>
    let parts := splitWhitespace stat_content
    if h : parts.length < 15 then none
    else
      match parseU64 (parts.get ⟨13, by omega⟩), parseU64 (parts.get ⟨14, by omega⟩) with
      | some utime, some stime => some ((utime + stime) % 2 ^ 64)
      | _, _ => none

/-- `impl AttentionDetector for StallDetector` with configured `timeout`
(nanoseconds): emits `ProcessStalled` when a previous CPU sample exists and
equals the current one, the idle duration exceeds the timeout, and the task
age exceeds 30 seconds. -/
def StallDetector.check (timeout : Nat) (env : Env) (task : Task) (context : TaskContext) :
    Except String (Option AttentionReason) :=
  match StallDetector.get_process_cpu_time env context.pid with
  | some current_cpu =>
    match context.last_cpu_time with
    | some last_cpu =>
      if current_cpu = last_cpu && context.idle_duration > timeout then
        match systemNowSecs env with
        | .error e => .error e
        | .ok nowSecs =>
          if taskAgeSecs nowSecs task.created_at > 30 then
            .ok (some AttentionReason.ProcessStalled)
          else .ok none
      else .ok none
    | none => .ok none
  | none => .ok none

/-- `StdinDetector::is_reading_stdin`: runs `lsof -p <pid> -a -d 0`; a
failed spawn is `false`, otherwise more than one stdout line counts as
reading stdin. -/
def StdinDetector.is_reading_stdin (env : Env) (pid : Int) : Bool :=
  match env.lsofStdout pid with
  | some out => (rustLines out).length > 1
  | none => false

/-- `impl AttentionDetector for StdinDetector`: emits `WaitingForInput`
when the process appears to read stdin and the task age exceeds 30
seconds. -/
def StdinDetector.check (env : Env) (task : Task) (context : TaskContext) :
    Except String (Option AttentionReason) :=
  if StdinDetector.is_reading_stdin env context.pid then
    match systemNowSecs env with
    | .error e => .error e
    | .ok nowSecs =>
      if taskAgeSecs nowSecs task.created_at > 30 then
        .ok (some AttentionReason.WaitingForInput)
      else .ok none
  else .ok none

/-- The closed set of `Box<dyn AttentionDetector>` implementations in the
source; `stall` carries the configured timeout in nanoseconds. -/
inductive Detector where
  | processState
  | stall (timeout : Nat)
  | stdinBased
deriving DecidableEq

/-- Dynamic dispatch of `AttentionDetector::check`. -/
def Detector.check : Detector → Env → Task → TaskContext → Except String (Option AttentionReason)
  | .processState => ProcessStateDetector.check
  | .stall timeout => StallDetector.check timeout
  | .stdinBased => StdinDetector.check

/-- `create_default_detectors`: the default registry. -/
def create_default_detectors : List Detector :=
  [Detector.processState, Detector.stall (durationFromSecs 600)]

/-- Did a `check` call return (rather than panic)? -/
def isOkResult (e : Except String (Option AttentionReason)) : Bool :=
  match e with
  | .ok _ => true
  | .error _ => false

/-- Two successive invocations of the same detector on the same arguments
under the same ambient OS state. -/
def checkTwice (d : Detector) (env : Env) (task : Task) (context : TaskContext) :
    Except String (Option AttentionReason) × Except String (Option AttentionReason) :=
  (Detector.check d env task context, Detector.check d env task context)

/-- An environment where every OS read fails (the process has exited). -/
def envNone : Env :=
  ⟨0, fun _ => none, fun _ => none, fun _ => none⟩

/-- Scenario-1 style environment: clock at 15 s, process sleeping (`S`),
descriptor 0 resolved to `/dev/pts/3`. -/
def envSleep : Env :=
  ⟨15, fun _ => some "123 (cat) S", fun _ => some "/dev/pts/3", fun _ => none⟩

/-- A well-formed 15-token `/proc/<pid>/stat` record with utime 400 and
stime 600 (combined CPU time 1000). -/
def cpuRecord : String :=
  "1 (x) S 0 0 0 0 0 0 0 0 0 0 400 600"

/-- Scenario-3 environment: clock at 40 s, combined CPU time 1000. -/
def envCpu : Env :=
  ⟨40, fun _ => some cpuRecord, fun _ => none, fun _ => none⟩

/-- Scenario-4 environment: clock at 40 s, combined CPU time 1002. -/
def envCpuChanged : Env :=
  ⟨40, fun _ => some "1 (x) S 0 0 0 0 0 0 0 0 0 0 400 602", fun _ => none, fun _ => none⟩

/-- Environment where `lsof` produced a two-line output (header plus one
open-descriptor row) and the clock reads 100 s. -/
def envStdin : Env :=
  ⟨100, fun _ => none, fun _ => none, fun _ => some "COMMAND PID\nagent 1 0u CHR"⟩

/-- Environment whose stat record has only two tokens. -/
def envShortStat : Env :=
  ⟨0, fun _ => some "12 (x)", fun _ => none, fun _ => none⟩

/-- When the clock reads at or after the epoch, the source's
`duration_since(UNIX_EPOCH).unwrap().as_secs()` succeeds. -/
theorem systemNowSecs_ok (env : Env) (h : 0 ≤ env.now) :
    systemNowSecs env = .ok env.now.toNat := by
  simp [systemNowSecs, h]

/-- The task age equals the exact clock-minus-creation difference whenever
no `i64` wrap occurs. -/
theorem taskAge_exact (env : Env) (ca : Int) (h0 : 0 ≤ env.now) (h1 : env.now < 2 ^ 63)
    (h2 : -(2 ^ 63) ≤ env.now - ca) (h3 : env.now - ca < 2 ^ 63) :
    taskAgeSecs env.now.toNat ca = env.now - ca := by
  unfold taskAgeSecs wrapI64
  omega

/-- C1: `create_default_detectors` returns exactly 2 detectors, the
state-based one first and the stall-based one second, the stall timeout is
600 seconds, and the file-handle (stdin) variant is absent. -/
theorem create_default_detectors_spec :
    create_default_detectors.length = 2 ∧
    create_default_detectors =
      [Detector.processState, Detector.stall (durationFromSecs 600)] ∧
    durationAsSecs (durationFromSecs 600) = 600 ∧
    Detector.stdinBased ∉ create_default_detectors := by
  refine ⟨rfl, rfl, rfl, ?_⟩
  decide

/-- C2: with the system clock at or after the epoch (which is what makes
the source's `unwrap` branch unreachable), no detector's `check` ever
panics: every OS read or parse failure degrades to a returned value, never
a propagated fault. -/
theorem check_never_panics (d : Detector) (env : Env) (task : Task)
    (context : TaskContext) (hclock : 0 ≤ env.now) :
    isOkResult (Detector.check d env task context) = true := by
  have hnow := systemNowSecs_ok env hclock
  cases d with
  | processState =>
    simp only [Detector.check, ProcessStateDetector.check, hnow]
    repeat' split
    all_goals rfl
  | stall timeout =>
    simp only [Detector.check, StallDetector.check, hnow]
    repeat' split
    all_goals rfl
  | stdinBased =>
    simp only [Detector.check, StdinDetector.check, hnow]
    repeat' split
    all_goals rfl

/-- C2 witness: the state-based detector at a concrete sleeping-on-pty
environment returns without panicking. -/
theorem check_never_panics_witness :
    isOkResult (Detector.check Detector.processState envSleep ⟨0⟩ ⟨1, 0, none, 6000000000⟩) = true :=
  check_never_panics Detector.processState envSleep ⟨0⟩ ⟨1, 0, none, 6000000000⟩ (by decide)

/-- C5: on the first poll (`last_cpu_time = none`) the stall-based detector
returns no verdict, whatever the current CPU reading, idle duration and
task age. -/
theorem stall_first_poll_none (timeout : Nat) (env : Env) (task : Task)
    (context : TaskContext) (h : context.last_cpu_time = none) :
    StallDetector.check timeout env task context = .ok none := by
  unfold StallDetector.check
  cases StallDetector.get_process_cpu_time env context.pid <;> simp [h]

/-- C5 witness: first poll over the scenario-3 environment (huge idle,
mature task) still yields no verdict. -/
theorem stall_first_poll_none_witness :
    StallDetector.check (durationFromSecs 600) envCpu ⟨0⟩ ⟨1, 0, none, 650000000000⟩ = .ok none :=
  stall_first_poll_none (durationFromSecs 600) envCpu ⟨0⟩ ⟨1, 0, none, 650000000000⟩ rfl

/-- C6: when the current combined CPU time differs from the previous
sample, the stall-based detector returns no verdict, however large the
idle duration and whatever the task age. -/
theorem stall_cpu_changed_none (timeout : Nat) (env : Env) (task : Task)
    (context : TaskContext) (current last : Nat)
    (hcur : StallDetector.get_process_cpu_time env context.pid = some current)
    (hlast : context.last_cpu_time = some last)
    (hne : current ≠ last) :
    StallDetector.check timeout env task context = .ok none := by
  unfold StallDetector.check
  simp [hcur, hlast, hne]

/-- C6 witness (Scenario 4): current CPU time 1002 against a previous
sample of 1000, idle 650 s, timeout 600 s, task age 40 s: no verdict. -/
theorem stall_cpu_changed_none_witness :
    StallDetector.check (durationFromSecs 600) envCpuChanged ⟨0⟩
      ⟨1, 0, some 1000, 650000000000⟩ = .ok none :=
  stall_cpu_changed_none (durationFromSecs 600) envCpuChanged ⟨0⟩
    ⟨1, 0, some 1000, 650000000000⟩ 1002 1000 rfl rfl (by decide)

/-- With a readable stat record of at least three tokens, the state reader
inspects exactly the third token. -/
theorem check_process_state_of_len (env : Env) (pid : Int) (s : String)
    (hstat : env.procStat pid = some s) (h : 2 < (splitWhitespace s).length) :
    ProcessStateDetector.check_process_state env pid =
      (if (splitWhitespace s).get ⟨2, h⟩ = "S" then
        match env.fdLink pid with
        | some link =>
          if strContains link "/dev/pts/" || strContains link "/dev/tty" then
            some "waiting_input"
          else some ((splitWhitespace s).get ⟨2, h⟩)
        | none => some ((splitWhitespace s).get ⟨2, h⟩)
      else some ((splitWhitespace s).get ⟨2, h⟩)) := by
  simp only [ProcessStateDetector.check_process_state, hstat]
  rw [dif_neg (by omega : ¬ (splitWhitespace s).length < 3)]

/-- With a readable stat record of at least fifteen tokens, the CPU reader
parses exactly the 14th and 15th tokens and sums them. -/
theorem get_process_cpu_time_of_len (env : Env) (pid : Int) (s : String)
    (hstat : env.procStat pid = some s) (h : 14 < (splitWhitespace s).length) :
    StallDetector.get_process_cpu_time env pid =
      (match parseU64 ((splitWhitespace s).get ⟨13, by omega⟩),
             parseU64 ((splitWhitespace s).get ⟨14, by omega⟩) with
       | some utime, some stime => some ((utime + stime) % 2 ^ 64)
       | _, _ => none) := by
  simp only [StallDetector.get_process_cpu_time, hstat]
  rw [dif_neg (by omega : ¬ (splitWhitespace s).length < 15)]

/-- C3 counterexample: task age 15 s, state `S`, descriptor 0 on
`/dev/pts/3`, and an idle duration of 5.5 s — which exceeds 5 seconds — yet
the state-based detector emits nothing, because the source truncates the
idle duration to whole seconds (`as_secs() > 5`) before comparing. -/
theorem state_detector_subsecond_idle_cex :
    (2 < (splitWhitespace "123 (cat) S").length) ∧
    (splitWhitespace "123 (cat) S").get ⟨2, by decide⟩ = "S" ∧
    envSleep.fdLink 1 = some "/dev/pts/3" ∧
    strContains "/dev/pts/3" "/dev/pts/" = true ∧
    10 < envSleep.now - (0 : Int) ∧
    durationFromSecs 5 < (5500000000 : Nat) ∧
    ProcessStateDetector.check envSleep ⟨0⟩ ⟨1, 0, none, 5500000000⟩ = .ok none := by
  refine ⟨by decide, by decide, rfl, by decide, by decide, by decide, ?_⟩
  rfl

/-- C3 (amended): when the process state is `S` and descriptor 0 resolves
to a pty/tty target, the state-based detector emits `WaitingForInput` iff
the task age exceeds 10 seconds and the idle duration truncated to whole
seconds exceeds 5 (i.e. the idle duration is at least 6 seconds); in
particular age 15 s with idle 6 s emits, and idle of at most 5 s never
does. -/
theorem state_detector_waiting_iff (env : Env) (task : Task) (context : TaskContext)
    (s : String) (hstat : env.procStat context.pid = some s)
    (hlen : 2 < (splitWhitespace s).length)
    (hS : (splitWhitespace s).get ⟨2, hlen⟩ = "S")
    (l : String) (hlink : env.fdLink context.pid = some l)
    (hterm : strContains l "/dev/pts/" = true ∨ strContains l "/dev/tty" = true)
    (h0 : 0 ≤ env.now) (h1 : env.now < 2 ^ 63)
    (h2 : 0 ≤ task.created_at) (h3 : task.created_at < 2 ^ 63) :
    ProcessStateDetector.check env task context = .ok (some AttentionReason.WaitingForInput) ↔
      (10 < env.now - task.created_at ∧ 5 < durationAsSecs context.idle_duration) := by
  have hcps : ProcessStateDetector.check_process_state env context.pid = some "waiting_input" := by
    rw [check_process_state_of_len env context.pid s hstat hlen, hS]
    rcases hterm with h | h <;> simp [hlink, h]
  have hage : taskAgeSecs env.now.toNat task.created_at = env.now - task.created_at :=
    taskAge_exact env task.created_at h0 h1 (by omega) (by omega)
  simp only [ProcessStateDetector.check, hcps, systemNowSecs_ok env h0, hage, if_true]
  by_cases hc : 10 < env.now - task.created_at ∧ 5 < durationAsSecs context.idle_duration
  · rw [if_pos (by simp [hc.1, hc.2])]
    simpa using hc
  · rw [if_neg (by simp only [Bool.and_eq_true, decide_eq_true_eq]; exact hc)]
    simp only [iff_false_intro hc, iff_false]
    intro hcontra
    exact Option.noConfusion (Except.ok.inj hcontra)

/-- C3 (amended) witness, Scenario 1: age 15 s, state `S`, pty descriptor,
idle 6 s: the state-based detector emits `WaitingForInput`. -/
theorem state_detector_waiting_iff_witness :
    ProcessStateDetector.check envSleep ⟨0⟩ ⟨1, 0, none, 6000000000⟩ =
      .ok (some AttentionReason.WaitingForInput) :=
  (state_detector_waiting_iff envSleep ⟨0⟩ ⟨1, 0, none, 6000000000⟩
    "123 (cat) S" rfl (by decide) (by decide) "/dev/pts/3" rfl
    (Or.inl (by decide)) (by decide) (by decide) (by decide) (by decide)).mpr
    ⟨by decide, by decide⟩

/-- C4: a task younger than 10 seconds never makes the state-based
detector emit, regardless of the process state and descriptor target. -/
theorem state_detector_young_none (env : Env) (task : Task) (context : TaskContext)
    (h0 : 0 ≤ env.now) (h1 : env.now < 2 ^ 63)
    (h2 : -(2 ^ 63) ≤ task.created_at) (h3 : task.created_at < 2 ^ 63)
    (hyoung : env.now - task.created_at < 10) :
    ProcessStateDetector.check env task context = .ok none := by
  have hage : taskAgeSecs env.now.toNat task.created_at = env.now - task.created_at :=
    taskAge_exact env task.created_at h0 h1 (by omega) (by omega)
  simp only [ProcessStateDetector.check, systemNowSecs_ok env h0, hage]
  repeat' split
  all_goals first
    | rfl
    | (rename_i hcond; exact absurd hcond (by simp; omega))

/-- C4 witness (Scenario 2): age 5 s, sleeping on `/dev/pts/3`, idle 6 s:
no verdict. -/
theorem state_detector_young_none_witness :
    ProcessStateDetector.check envSleep ⟨10⟩ ⟨1, 0, none, 6000000000⟩ = .ok none :=
  state_detector_young_none envSleep ⟨10⟩ ⟨1, 0, none, 6000000000⟩
    (by decide) (by decide) (by decide) (by decide) (by decide)

/-- C7: with a previous CPU sample equal to the current combined CPU time,
idle duration beyond the configured timeout, and task age beyond 30
seconds, the stall-based detector emits `ProcessStalled`. -/
theorem stall_detector_stalls (timeout : Nat) (env : Env) (task : Task)
    (context : TaskContext) (current : Nat)
    (hcur : StallDetector.get_process_cpu_time env context.pid = some current)
    (hlast : context.last_cpu_time = some current)
    (hidle : timeout < context.idle_duration)
    (h0 : 0 ≤ env.now) (h1 : env.now < 2 ^ 63)
    (h2 : 0 ≤ task.created_at) (h3 : task.created_at < 2 ^ 63)
    (hage : 30 < env.now - task.created_at) :
    StallDetector.check timeout env task context = .ok (some AttentionReason.ProcessStalled) := by
  have hage2 : taskAgeSecs env.now.toNat task.created_at = env.now - task.created_at :=
    taskAge_exact env task.created_at h0 h1 (by omega) (by omega)
  simp only [StallDetector.check, hcur, hlast, systemNowSecs_ok env h0, hage2]
  rw [if_pos (by simp [hidle])]
  rw [if_pos (by omega)]

/-- C7 witness (Scenario 3): timeout 600 s, age 40 s, previous and current
CPU time 1000, idle 650 s: `ProcessStalled`. -/
theorem stall_detector_stalls_witness :
    StallDetector.check (durationFromSecs 600) envCpu ⟨0⟩
      ⟨1, 0, some 1000, 650000000000⟩ = .ok (some AttentionReason.ProcessStalled) :=
  stall_detector_stalls (durationFromSecs 600) envCpu ⟨0⟩
    ⟨1, 0, some 1000, 650000000000⟩ 1000 rfl rfl (by decide)
    (by decide) (by decide) (by decide) (by decide) (by decide)

/-- C8: both readers treat the stat record as a whitespace-separated token
list: fewer than 3 tokens (state reader) or fewer than 15 tokens (CPU
reader) yields no data; with enough tokens the state reader answers either
the sentinel or exactly the 3rd token, and the CPU reader parses exactly
the 14th and 15th tokens as unsigned integers and sums them, yielding no
data when either is non-numeric. -/
theorem stat_record_parsing (env : Env) (pid : Int) (s : String)
    (hstat : env.procStat pid = some s) :
    ((splitWhitespace s).length < 3 →
      ProcessStateDetector.check_process_state env pid = none) ∧
    ((splitWhitespace s).length < 15 →
      StallDetector.get_process_cpu_time env pid = none) ∧
    (∀ h : 2 < (splitWhitespace s).length,
      ProcessStateDetector.check_process_state env pid = some "waiting_input" ∨
      ProcessStateDetector.check_process_state env pid =
        some ((splitWhitespace s).get ⟨2, h⟩)) ∧
    (∀ h : 14 < (splitWhitespace s).length,
      StallDetector.get_process_cpu_time env pid =
        (match parseU64 ((splitWhitespace s).get ⟨13, by omega⟩),
               parseU64 ((splitWhitespace s).get ⟨14, by omega⟩) with
         | some utime, some stime => some ((utime + stime) % 2 ^ 64)
         | _, _ => none)) := by
  refine ⟨?_, ?_, ?_, ?_⟩
  · intro h
    simp only [ProcessStateDetector.check_process_state, hstat]
    rw [dif_pos h]
  · intro h
    simp only [StallDetector.get_process_cpu_time, hstat]
    rw [dif_pos h]
  · intro h
    rw [check_process_state_of_len env pid s hstat h]
    by_cases hS : (splitWhitespace s).get ⟨2, h⟩ = "S"
    · rw [if_pos hS]
      cases hfd : env.fdLink pid with
      | none => exact Or.inr rfl
      | some link =>
        by_cases hp : (strContains link "/dev/pts/" || strContains link "/dev/tty") = true
        · left
          simp [hp]
        · right
          simp [hp]
    · rw [if_neg hS]
      exact Or.inr rfl
  · intro h
    exact get_process_cpu_time_of_len env pid s hstat h

/-- C8 witness: a two-token record yields no data from either reader. -/
theorem stat_record_parsing_witness :
    ProcessStateDetector.check_process_state envShortStat 1 = none ∧
    StallDetector.get_process_cpu_time envShortStat 1 = none :=
  ⟨(stat_record_parsing envShortStat 1 "12 (x)" rfl).1 (by decide),
   (stat_record_parsing envShortStat 1 "12 (x)" rfl).2.1 (by decide)⟩

/-- C10: a future-dated task (creation timestamp at or after the current
wall clock, so non-positive signed age) makes every detector variant
return no verdict and never fault, because each emission path is gated by
a strict positive age threshold. -/
theorem future_task_no_verdict (d : Detector) (env : Env) (task : Task)
    (context : TaskContext)
    (h0 : 0 ≤ env.now) (h1 : env.now < 2 ^ 63) (h3 : task.created_at < 2 ^ 63)
    (hfuture : env.now ≤ task.created_at) :
    Detector.check d env task context = .ok none := by
  have hage : taskAgeSecs env.now.toNat task.created_at ≤ 0 := by
    unfold taskAgeSecs wrapI64
    omega
  have hnow := systemNowSecs_ok env h0
  cases d with
  | processState =>
    simp only [Detector.check, ProcessStateDetector.check, hnow]
    repeat' split
    all_goals first
      | rfl
      | (rename_i hcond; exact absurd hcond (by simp; omega))
  | stall timeout =>
    simp only [Detector.check, StallDetector.check, hnow]
    repeat' split
    all_goals first
      | rfl
      | (rename_i hcond; exact absurd hcond (by simp; omega))
  | stdinBased =>
    simp only [Detector.check, StdinDetector.check, hnow]
    repeat' split
    all_goals first
      | rfl
      | (rename_i hcond; exact absurd hcond (by simp; omega))

/-- C10 witness: a task created exactly at the current clock reading, with
`lsof` reporting a two-line output (so the stdin heuristic fires), still
gets no verdict from the file-handle variant. -/
theorem future_task_no_verdict_witness :
    Detector.check Detector.stdinBased envStdin ⟨100⟩ ⟨1, 0, none, 0⟩ = .ok none :=
  future_task_no_verdict Detector.stdinBased envStdin ⟨100⟩ ⟨1, 0, none, 0⟩
    (by decide) (by decide) (by decide) (by decide)

/-- C9: every detector is deterministic and stateless: the Rust `check`
implementations take `&self`, `&Task` and `&TaskContext` with no interior
mutability, so they embed as pure functions, and two invocations on
identical arguments under identical ambient OS state give identical
results. -/
theorem check_idempotent (d : Detector) (env : Env) (task : Task) (context : TaskContext) :
    (checkTwice d env task context).1 = (checkTwice d env task context).2 := rfl

end AgentMonitor
